import Mathlib

/-!
Shallow embedding of the product catalog router (`src/unnamed/part_000`)
and its Mongoose product schema (`src/src/products/products.model.js`).

Modelling conventions:
* Documents are Lean structures; the persistence gateway is a `DB` record of
  lists.  Object ids are `Nat` for products/reviews and `String` for users
  (matching the `author`/`userId` reference fields, which arrive as strings).
* JS numbers appearing in query strings are modelled by `JSNum`
  (finite rational, `+Infinity`, `-Infinity`, `NaN`); stored prices are `Rat`.
* JS truthiness of request-body values: a missing field is `none` (falsy),
  a string is falsy iff empty, an array value is always truthy (JS `![]`
  is `false`, even for the empty array).
* `ProductSchema` declares only name, description, image and author, and
  Mongoose strict mode (the default) discards every other path handed to
  the model constructor or to `$set`, so this router's writes never persist
  category, price, quantity or color.  The collection itself is schemaless:
  stored documents model those non-schema paths as optional fields, present
  only when some other ingestion wrote them (the spec's own examples assume
  categorized, priced products).
* Mongoose `required` validation: a required `String` path rejects the
  empty string, but the required array path `image: [String]` only checks
  `v != null` — the empty array passes, so an empty image sequence saves.
* `name.split(" ")` is modelled by `splitSpace` over the character list
  (splitting on single spaces, keeping empty fragments, as JS does).  The
  regex built from the surviving tokens joined with `|` under flag `i` is
  modelled by `regexTestCI`, which is exact for the empty token list (the
  empty pattern matches every string) and for alternations of
  metacharacter-free tokens; tokens containing regex metacharacters make
  the real `RegExp` match more widely or throw, which this file does not
  model (the one claim needing that generality is left unresolved).
* `parseFloat` is modelled on optional sign, `Infinity`, and decimal
  digit/fraction prefixes (exponent notation is not modelled); `parseInt`
  on optional sign and a decimal digit prefix, `none` standing for `NaN`.
-/

/-- JS number results of `parseFloat`: a finite rational, an infinity, or NaN. -/
inductive JSNum where
  | nan
  | posInf
  | negInf
  | fin (q : Rat)
deriving Repr, DecidableEq

/-- `isNaN` on a parsed number. -/
def JSNum.isNaN : JSNum → Bool
  | .nan => true
  | _ => false

/-- The number is finite (neither NaN nor an infinity). -/
def JSNum.isFinite : JSNum → Bool
  | .fin _ => true
  | _ => false

/-- Decimal value of a digit list (most significant first). -/
def digitsVal (cs : List Char) : Nat :=
  cs.foldl (fun a c => a * 10 + (c.toNat - 48)) 0

/-- JS whitespace skipped by the numeric parsers. -/
def isJsSpace (c : Char) : Bool :=
  c = ' ' || c = '\t' || c = '\n' || c = '\r'

/-- `parseFloat`: skip leading whitespace, optional sign, then either the
literal `Infinity` or a decimal `digits[.digits]` prefix; `NaN` when no
numeric prefix is found.  Trailing garbage is ignored, as in JS. -/
def parseFloat (s : String) : JSNum :=
  let cs := s.data.dropWhile isJsSpace
  let neg : Bool := match cs with
    | '-' :: _ => true
    | _ => false
  let body : List Char := match cs with
    | '-' :: rest => rest
    | '+' :: rest => rest
    | _ => cs
  if body.take 8 = "Infinity".data then
    if neg then .negInf else .posInf
  else
    let intPart := body.takeWhile Char.isDigit
    let rest := body.dropWhile Char.isDigit
    let fracPart : List Char := match rest with
      | '.' :: r => r.takeWhile Char.isDigit
      | _ => []
    if intPart = [] ∧ fracPart = [] then .nan
    else
      let mag : Rat :=
        if fracPart = [] then (digitsVal intPart : Rat)
        else (digitsVal intPart : Rat) + (digitsVal fracPart : Rat) / ((10 : Rat) ^ fracPart.length)
      .fin (if neg then -mag else mag)

/-- `parseInt` in base 10: skip whitespace, optional sign, decimal digit
prefix; `none` models `NaN`. -/
def jsParseInt (s : String) : Option Int :=
  let cs := s.data.dropWhile isJsSpace
  let neg : Bool := match cs with
    | '-' :: _ => true
    | _ => false
  let body : List Char := match cs with
    | '-' :: rest => rest
    | '+' :: rest => rest
    | _ => cs
  let ds := body.takeWhile Char.isDigit
  if ds = [] then none
  else some ((if neg then -1 else 1) * (digitsVal ds : Int))

/-- JS truthiness of an optional string value: missing (`undefined`) and the
empty string are falsy. -/
def jsTruthyStr : Option String → Bool
  | none => false
  | some s => s ≠ ""

/-- JS truthiness of an optional array value: missing is falsy, any array —
including the empty one — is truthy. -/
def jsTruthyList : Option (List String) → Bool
  | none => false
  | some _ => true

/-- `pat` occurs as a contiguous sublist of `l`. -/
def infixOf (pat : List Char) : List Char → Bool
  | [] => pat.isEmpty
  | c :: rest => pat.isPrefixOf (c :: rest) || infixOf pat rest

/-- Case-insensitive substring test (regex flag `i` on literal text). -/
def containsCI (pat s : List Char) : Bool :=
  infixOf (pat.map Char.toLower) (s.map Char.toLower)

/-- `String.prototype.split(" ")`: split on each single space, keeping empty
fragments. -/
def splitSpace : List Char → List (List Char)
  | [] => [[]]
  | c :: rest =>
    let r := splitSpace rest
    if c = ' ' then [] :: r
    else
      match r with
      | [] => [[c]]
      | w :: ws => (c :: w) :: ws

/-- Test of the regex `new RegExp(tokens.join("|"), "i")` against `s`, for
regex-literal tokens: the empty join yields the empty pattern, which matches
every string; otherwise the alternation matches iff some token occurs
case-insensitively in `s`. -/
def regexTestCI (tokens : List (List Char)) (s : List Char) : Bool :=
  if tokens.isEmpty then true
  else tokens.any (fun t => containsCI t s)

/-- The sentinel "general" category value: the source writes the Arabic word
for "general". -/
def generalSentinel : String := "عام"

/-- A document of the products collection: the `ProductSchema` paths (the
only ones this router's strict-mode writes can persist) plus the non-schema
paths — category, price, quantity, color — as optional fields, present only
when some other ingestion wrote them (the store is schemaless, and the
router's queries still reference these paths). -/
structure Product where
  id : Nat
  name : String
  description : String
  image : List String
  author : String
  category : Option String
  price : Option Rat
  quantity : Option Int
  color : Option String
  createdAt : Nat
deriving Repr, DecidableEq

/-- A stored review document (fields the router touches). -/
structure Review where
  rid : Nat
  productId : Nat
  userId : String
  comment : String
deriving Repr, DecidableEq

/-- A user document, as projected by `populate`. -/
structure User where
  uid : String
  username : String
  email : String
deriving Repr, DecidableEq

/-- The persistence gateway state: product, review and user collections plus
a counter supplying fresh ids and `createdAt` timestamps. -/
structure DB where
  products : List Product
  reviews : List Review
  users : List User
  nextId : Nat
deriving Repr, DecidableEq

/-- The empty store. -/
def initDB : DB := { products := [], reviews := [], users := [], nextId := 0 }

/-- Body of `POST /create-product`: the four core fields plus the optional
fields a caller may also send (which the handler never reads). -/
structure CreateBody where
  name : Option String
  description : Option String
  image : Option (List String)
  author : Option String
  category : Option String
  price : Option Rat
  quantity : Option Int
deriving Repr, DecidableEq

/-- Outcome of `POST /create-product`. -/
inductive CreateRes where
  | badRequest
  | created (p : Product)
  | serverError
deriving Repr, DecidableEq

/-- The object literal handed to the `Products` constructor (lines 61–71):
it always carries the fixed values `category = generalSentinel`,
`price = 0`, `quantity = 1`, never the body's own category, price or
quantity. -/
structure ProductDoc where
  name : String
  description : String
  image : List String
  author : String
  category : String
  price : Rat
  quantity : Int
deriving Repr, DecidableEq

/-- Lines 61–71: the document the create handler hands to the persistence
layer. -/
def newProductDoc (b : CreateBody) : ProductDoc :=
  { name := b.name.getD ""
    description := b.description.getD ""
    image := b.image.getD []
    author := b.author.getD ""
    category := generalSentinel
    price := 0
    quantity := 1 }

/-- Mongoose strict-mode `save`: only the schema paths of the constructor
argument are persisted (category, price and quantity are not schema paths
and are discarded); `_id` and `createdAt` are generated.  The required
validators pass here: the string paths are non-empty after the handler's
truthiness check, and the array path's required check is only `v != null`,
which any present array — including the empty one — satisfies. -/
def saveStrict (d : ProductDoc) (fresh : Nat) : Product :=
  { id := fresh
    name := d.name
    description := d.description
    image := d.image
    author := d.author
    category := none
    price := none
    quantity := none
    color := none
    createdAt := fresh }

/-- `POST /create-product` (lines 52–79): 400 when any of name, description,
image, author is JS-falsy; otherwise hand `newProductDoc` to the model and
save it under strict mode, answering 201 with the saved record. -/
def createHandler (b : CreateBody) (db : DB) : CreateRes × DB :=
  if !(jsTruthyStr b.name && jsTruthyStr b.description
      && jsTruthyList b.image && jsTruthyStr b.author) then
    (.badRequest, db)
  else
    let p : Product := saveStrict (newProductDoc b) db.nextId
    (.created p, { db with products := db.products ++ [p], nextId := db.nextId + 1 })

/-- Query string of `GET /` (all values arrive as strings when present). -/
structure ListQuery where
  category : Option String
  color : Option String
  minPrice : Option String
  maxPrice : Option String
  page : Option String
  limit : Option String
deriving Repr, DecidableEq

/-- The Mongo filter document assembled by `GET /` (lines 93–109). -/
structure ProductFilter where
  category : Option String
  color : Option String
  price : Option (JSNum × JSNum)
deriving Repr, DecidableEq

/-- Filter construction of `GET /`: category and color apply when truthy and
not the sentinel `"all"`; the price range applies only when both bounds are
truthy and both `parseFloat` results pass the `!isNaN` check. -/
def buildFilter (q : ListQuery) : ProductFilter :=
  { category :=
      if jsTruthyStr q.category && q.category.getD "" ≠ "all" then q.category else none
    color :=
      if jsTruthyStr q.color && q.color.getD "" ≠ "all" then q.color else none
    price :=
      if jsTruthyStr q.minPrice && jsTruthyStr q.maxPrice then
        let mn := parseFloat (q.minPrice.getD "")
        let mx := parseFloat (q.maxPrice.getD "")
        if !mn.isNaN && !mx.isNaN then some (mn, mx) else none
      else none }

/-- `{ $gte: bound }` on a finite stored price. -/
def gteMatches (bound : JSNum) (v : Rat) : Bool :=
  match bound with
  | .nan => false
  | .posInf => false
  | .negInf => true
  | .fin q => q ≤ v

/-- `{ $lte: bound }` on a finite stored price. -/
def lteMatches (bound : JSNum) (v : Rat) : Bool :=
  match bound with
  | .nan => false
  | .posInf => true
  | .negInf => false
  | .fin q => v ≤ q

/-- A product document matches the assembled filter: an equality or range
condition on a path only matches documents carrying that path (MongoDB
semantics — a document missing the path satisfies no such condition). -/
def matchesFilter (f : ProductFilter) (p : Product) : Bool :=
  (match f.category with
   | none => true
   | some c => p.category == some c) &&
  (match f.color with
   | none => true
   | some c => p.color == some c) &&
  (match f.price with
   | none => true
   | some (mn, mx) =>
     match p.price with
     | some v => gteMatches mn v && lteMatches mx v
     | none => false)

/-- Insert a product into a list kept in descending `createdAt` order. -/
def insertDesc (p : Product) : List Product → List Product
  | [] => [p]
  | q :: rest =>
    if q.createdAt ≤ p.createdAt then p :: q :: rest
    else q :: insertDesc p rest

/-- The gateway's `sort({ createdAt: -1 })`: descending creation time. -/
def sortDesc (l : List Product) : List Product :=
  l.foldr insertDesc []

/-- `Math.ceil` of a natural division, as used for `totalPages`. -/
def ceilDiv (t l : Nat) : Nat := (t + l - 1) / l

/-- `populate("author", "email")`: pair each record with the referenced
user's email projection. -/
def populateAuthorEmail (db : DB) (p : Product) : Product × Option String :=
  (p, (db.users.find? (fun u => u.uid == p.author)).map (fun u => u.email))

/-- Outcome of `GET /`: the populated page, `totalPages` and
`totalProducts`, or the 500 branch (which also covers gateway behavior on
NaN or negative skip/limit arguments, left unspecified by the spec). -/
inductive ListRes where
  | ok (products : List (Product × Option String)) (totalPages : Nat) (totalProducts : Nat)
  | serverError
deriving Repr, DecidableEq

/-- `GET /` (lines 82–126): build the filter, parse page/limit (defaults 1
and 10), compute `skip = (page-1)*limit`, count the filtered collection,
`totalPages = ceil(total/limit)`, and return the slice of the filtered
collection sorted by `createdAt` descending, author-populated. -/
def listHandler (q : ListQuery) (db : DB) : ListRes :=
  let f := buildFilter q
  let pageV : Option Int := match q.page with
    | some s => jsParseInt s
    | none => some 1
  let limitV : Option Int := match q.limit with
    | some s => jsParseInt s
    | none => some 10
  match pageV, limitV with
  | some page, some lim =>
    if 1 ≤ page ∧ 1 ≤ lim then
      let skip : Nat := ((page - 1) * lim).toNat
      let matching := db.products.filter (matchesFilter f)
      let totalProducts := matching.length
      let totalPages := ceilDiv totalProducts lim.toNat
      let pageItems := ((sortDesc matching).drop skip).take lim.toNat
      .ok (pageItems.map (populateAuthorEmail db)) totalPages totalProducts
    else
      .serverError
  | _, _ => .serverError

/-- Outcome of `GET /:id`: the author-populated product together with its
user-populated reviews, or 404. -/
inductive GetRes where
  | notFound
  | ok (product : Product × Option (String × String))
      (reviews : List (Review × Option (String × String)))
deriving Repr, DecidableEq

/-- `populate("userId", "username email")` on one review. -/
def populateReviewUser (db : DB) (r : Review) : Review × Option (String × String) :=
  (r, (db.users.find? (fun u => u.uid == r.userId)).map (fun u => (u.username, u.email)))

/-- The reviews fetched by `GET /:id`: those whose `productId` equals the
requested id, user-populated. -/
def reviewsFor (db : DB) (pid : Nat) : List (Review × Option (String × String)) :=
  (db.reviews.filter (fun r => r.productId == pid)).map (populateReviewUser db)

/-- `GET /:id` (lines 129–148): 404 when the id resolves to no product;
otherwise the product (author populated to email and username) together
with every review whose `productId` equals the id. -/
def getProductHandler (pid : Nat) (db : DB) : GetRes :=
  match db.products.find? (fun p => p.id == pid) with
  | none => .notFound
  | some p =>
    .ok (p, (db.users.find? (fun u => u.uid == p.author)).map (fun u => (u.email, u.username)))
       (reviewsFor db pid)

/-- Body of `PATCH /update-product/:id` (multipart fields spread into the
update; a field is `none` when absent, Mongoose drops `undefined` values
from `$set`, and strict mode discards non-schema paths from `$set`, so only
the schema paths can reach the store). -/
structure UpdateBody where
  name : Option String
  description : Option String
  image : Option (List String)
  author : Option String
deriving Repr, DecidableEq

/-- Outcome of `PATCH /update-product/:id`. -/
inductive UpdateRes where
  | notFound
  | ok (p : Product)
  | serverError
deriving Repr, DecidableEq

/-- Mongoose update validators (`runValidators`) over the `$set` paths: a
required `String` path set to the empty string fails, while the required
array path's check is only `v != null`, so any present image array —
including the empty one — passes. -/
def validUpdateData (u : UpdateBody) : Bool :=
  (match u.name with
   | none => true
   | some s => s ≠ "") &&
  (match u.description with
   | none => true
   | some s => s ≠ "") &&
  (match u.author with
   | none => true
   | some s => s ≠ "")

/-- `$set` of the (strict-mode-filtered) update document on a stored
product: only schema paths change. -/
def applySet (p : Product) (u : UpdateBody) : Product :=
  { p with
    name := u.name.getD p.name
    description := u.description.getD p.description
    image := u.image.getD p.image
    author := u.author.getD p.author }

/-- `PATCH /update-product/:id` (lines 151–189): when a file was uploaded,
the update's image becomes the single-element array `[file.path]`;
`findByIdAndUpdate` with `runValidators` rejects invalid `$set` values
(500, store unchanged), returns 404 when the id resolves to no product, and
otherwise stores and returns the updated record. -/
def updateHandler (pid : Nat) (b : UpdateBody) (file : Option String) (db : DB) :
    UpdateRes × DB :=
  let updateData : UpdateBody :=
    match file with
    | some f => { b with image := some [f] }
    | none => b
  if !validUpdateData updateData then
    (.serverError, db)
  else
    match db.products.find? (fun p => p.id == pid) with
    | none => (.notFound, db)
    | some p =>
      let p' := applySet p updateData
      (.ok p', { db with products := db.products.map (fun q => if q.id == pid then p' else q) })

/-- Outcome of `DELETE /:id`. -/
inductive DeleteRes where
  | notFound
  | ok
deriving Repr, DecidableEq

/-- `DELETE /:id` (lines 192–211): 404 with the store unchanged when the id
resolves to no product (`_id` is a unique key, so `findByIdAndDelete` removes
exactly the record with this id); otherwise delete the product and then
every review whose `productId` equals the id. -/
def deleteProductHandler (pid : Nat) (db : DB) : DeleteRes × DB :=
  match db.products.find? (fun p => p.id == pid) with
  | none => (.notFound, db)
  | some _ =>
    (.ok,
     { db with
       products := db.products.filter (fun p => p.id ≠ pid)
       reviews := db.reviews.filter (fun r => r.productId ≠ pid) })

/-- Outcome of `GET /related/:id` (the 400 branch for a missing id cannot
fire under the `/related/:id` route and is not modelled). -/
inductive RelatedRes where
  | notFound
  | ok (products : List Product)
deriving Repr, DecidableEq

/-- The tokens surviving `name.split(" ").filter(w => w.length > 1)`. -/
def nameTokens (name : String) : List (List Char) :=
  (splitSpace name.data).filter (fun w => 1 < w.length)

/-- `GET /related/:id` (lines 214–248): 404 when the id resolves to no
product; otherwise all other products whose name matches the
case-insensitive alternation of the target's surviving name tokens, or whose
category path equals the target's.  When the target document carries no
category path, `product.category` is `undefined`; Mongoose removes
`undefined` values from query filters, leaving the `$or` clause `{}`, which
matches every document — the `none` branch below. -/
def relatedHandler (pid : Nat) (db : DB) : RelatedRes :=
  match db.products.find? (fun p => p.id == pid) with
  | none => .notFound
  | some product =>
    let tokens := nameTokens product.name
    .ok (db.products.filter (fun p =>
      p.id != pid &&
        (regexTestCI tokens p.name.data ||
          match product.category with
          | some c => p.category == some c
          | none => true)))


/-- Every product in the store has a non-empty image sequence. -/
def imageInv (db : DB) : Prop := ∀ p ∈ db.products, p.image ≠ []

/-- The products of the store matching the filter of a list query (the
collection counted and paged by `GET /`). -/
def filteredProducts (q : ListQuery) (db : DB) : List Product :=
  db.products.filter (matchesFilter (buildFilter q))

/-- Example user referenced by the fixture products. -/
def exUser : User := { uid := "u1", username := "alice", email := "a@x.com" }

/-- Fixture: the spec's related-lookup target. -/
def pShoes : Product :=
  { id := 1, name := "Red Shoes Size 10", description := "d", image := ["i1"],
    author := "u1", category := some "footwear", price := some 5, quantity := some 1,
    color := none, createdAt := 3 }

/-- Fixture: shares the name token `Shoes`, different category. -/
def pBlue : Product :=
  { id := 2, name := "Blue Shoes", description := "d", image := ["i2"],
    author := "u1", category := some "apparel", price := some 6, quantity := some 1,
    color := none, createdAt := 2 }

/-- Fixture: same category, no shared token. -/
def pHat : Product :=
  { id := 3, name := "Hat", description := "d", image := ["i3"],
    author := "u1", category := some "footwear", price := some 7, quantity := some 1,
    color := none, createdAt := 1 }

/-- Fixture: unrelated name and category. -/
def pCar : Product :=
  { id := 4, name := "Car", description := "d", image := ["i4"],
    author := "u1", category := some "vehicles", price := some 8, quantity := some 1,
    color := none, createdAt := 0 }

/-- Fixture store with four products. -/
def exDB : DB :=
  { products := [pShoes, pBlue, pHat, pCar], reviews := [], users := [exUser], nextId := 10 }

/-- Fixture create body: the four core fields only. -/
def bCore : CreateBody :=
  { name := some "Lamp", description := some "desc", image := some ["img1"],
    author := some "u1", category := none, price := none, quantity := none }

/-- Fixture create body missing `name`. -/
def bNoName : CreateBody :=
  { name := none, description := some "desc", image := some ["img1"],
    author := some "u1", category := none, price := none, quantity := none }

/-- Fixture create body that also supplies category, price and quantity. -/
def bFull : CreateBody :=
  { name := some "Lamp", description := some "desc", image := some ["img1"],
    author := some "u1", category := some "custom", price := some 99, quantity := some 7 }

/-- The record `createHandler bFull initDB` (and `createHandler bCore
initDB`) persists: the strict-mode save keeps only the schema paths. -/
def pCreated : Product :=
  { id := 0, name := "Lamp", description := "desc", image := ["img1"],
    author := "u1", category := none, price := none, quantity := none,
    color := none, createdAt := 0 }

/-- The store after `createHandler bFull initDB`. -/
def dbAfterCreate : DB :=
  { products := [pCreated], reviews := [], users := [], nextId := 1 }

/-- Fixture create body whose image is the empty array (JS-truthy). -/
def bEmptyImg : CreateBody :=
  { name := some "Lamp", description := some "desc", image := some [],
    author := some "u1", category := none, price := none, quantity := none }

/-- The record `createHandler bEmptyImg initDB` persists: the empty image
array passes both the truthiness check and the array required check. -/
def pEmptyImg : Product :=
  { id := 0, name := "Lamp", description := "desc", image := [],
    author := "u1", category := none, price := none, quantity := none,
    color := none, createdAt := 0 }

/-- The store after `createHandler bEmptyImg initDB`. -/
def dbEmptyImg : DB :=
  { products := [pEmptyImg], reviews := [], users := [], nextId := 1 }

/-- Fixture list query with both price bounds, the lower parsing to
`Infinity`. -/
def c5Query : ListQuery :=
  { category := none, color := none, minPrice := some "Infinity",
    maxPrice := some "20", page := none, limit := none }

/-- Fixture list query supplying only `minPrice`. -/
def c5OnlyMin : ListQuery :=
  { category := none, color := none, minPrice := some "10",
    maxPrice := none, page := none, limit := none }

/-- Fixture list query: page 3 of size 2. -/
def pageQ : ListQuery :=
  { category := none, color := none, minPrice := none, maxPrice := none,
    page := some "3", limit := some "2" }

/-- Fixture review of product 1. -/
def rv1 : Review := { rid := 1, productId := 1, userId := "u1", comment := "good" }

/-- Fixture review of product 2. -/
def rv2 : Review := { rid := 2, productId := 2, userId := "u1", comment := "meh" }

/-- Fixture store with two products and one review each. -/
def delDB : DB :=
  { products := [pShoes, pBlue], reviews := [rv1, rv2], users := [exUser], nextId := 10 }

/-- Fixture: a product whose name tokens are all single characters. -/
def bugNameP : Product :=
  { id := 1, name := "A B", description := "d", image := ["i1"],
    author := "u1", category := some "c1", price := some 1, quantity := some 1,
    color := none, createdAt := 1 }

/-- Fixture: a product sharing neither a name token nor the category with
`bugNameP`. -/
def bugOtherP : Product :=
  { id := 2, name := "Zebra", description := "d", image := ["i2"],
    author := "u1", category := some "c2", price := some 2, quantity := some 1,
    color := none, createdAt := 0 }

/-- Fixture store exercising the empty-token-pattern edge case. -/
def bugDB : DB :=
  { products := [bugNameP, bugOtherP], reviews := [], users := [exUser], nextId := 10 }

/-- Descending creation-time order between two products. -/
def createdGe (a b : Product) : Prop := b.createdAt ≤ a.createdAt

instance : DecidableRel createdGe := fun a b => inferInstanceAs (Decidable (b.createdAt ≤ a.createdAt))

theorem mem_insertDesc {a p : Product} :
    ∀ {l : List Product}, a ∈ insertDesc p l ↔ a = p ∨ a ∈ l := by
  intro l
  induction l with
  | nil => simp [insertDesc]
  | cons q rest ih =>
    simp only [insertDesc]
    split
    · simp [List.mem_cons]
    · simp only [List.mem_cons, ih]
      tauto

theorem length_insertDesc (p : Product) :
    ∀ l : List Product, (insertDesc p l).length = l.length + 1 := by
  intro l
  induction l with
  | nil => rfl
  | cons q rest ih =>
    simp only [insertDesc]
    split
    · rfl
    · simp [List.length_cons, ih]

theorem length_sortDesc (l : List Product) : (sortDesc l).length = l.length := by
  induction l with
  | nil => rfl
  | cons p rest ih =>
    simp [sortDesc, List.foldr_cons] at *
    rw [length_insertDesc, ih]

theorem sorted_insertDesc {p : Product} :
    ∀ {l : List Product}, List.Sorted createdGe l → List.Sorted createdGe (insertDesc p l) := by
  intro l
  induction l with
  | nil => intro _; simp [insertDesc, List.sorted_singleton]
  | cons q rest ih =>
    intro h
    rw [List.sorted_cons] at h
    simp only [insertDesc]
    split
    · rename_i hqp
      rw [List.sorted_cons]
      constructor
      · intro b hb
        rcases List.mem_cons.mp hb with hbq | hbr
        · subst hbq; exact hqp
        · exact le_trans (h.1 b hbr) hqp
      · rw [List.sorted_cons]
        exact h
    · rename_i hqp
      rw [List.sorted_cons]
      constructor
      · intro b hb
        rcases mem_insertDesc.mp hb with hbp | hbr
        · subst hbp
          exact Nat.le_of_lt (Nat.lt_of_not_le hqp)
        · exact h.1 b hbr
      · exact ih h.2

theorem sorted_sortDesc (l : List Product) : List.Sorted createdGe (sortDesc l) := by
  induction l with
  | nil => simp [sortDesc, List.sorted_nil]
  | cons p rest ih =>
    simpa [sortDesc] using sorted_insertDesc (p := p) ih

theorem le_ceilDiv_mul (t l : Nat) (hl : 1 ≤ l) : t ≤ ceilDiv t l * l := by
  unfold ceilDiv
  have hd := Nat.div_add_mod (t + l - 1) l
  have hm : (t + l - 1) % l < l := Nat.mod_lt _ (by omega)
  rw [Nat.mul_comm]
  omega

theorem ceilDiv_le_of_le_mul {t l k : Nat} (hl : 1 ≤ l) (h : t ≤ k * l) :
    ceilDiv t l ≤ k := by
  unfold ceilDiv
  have h1 : t + l - 1 ≤ l * k + (l - 1) := by
    rw [Nat.mul_comm] at h
    omega
  calc (t + l - 1) / l ≤ (l * k + (l - 1)) / l := Nat.div_le_div_right h1
    _ = k + (l - 1) / l := Nat.mul_add_div (by omega) k (l - 1)
    _ = k := by rw [Nat.div_eq_of_lt (by omega), Nat.add_zero]

/-- Claim C1 (code behavior at the failing input): for a valid create
request omitting category, price and quantity, the handler hands the
sentinel defaults to the model constructor, but `ProductSchema` declares
none of those paths, so the strict-mode save discards them — the record
answered with 201 carries no category, price or quantity, not the claimed
sentinel/0/1. -/
theorem create_strict_strips_defaults :
    (newProductDoc bCore).category = generalSentinel ∧
      (newProductDoc bCore).price = 0 ∧ (newProductDoc bCore).quantity = 1 ∧
      createHandler bCore initDB = (.created pCreated, dbAfterCreate) ∧
      pCreated.category = none ∧ pCreated.price = none ∧ pCreated.quantity = none := by
  decide

/-- Claim C9: a create request missing any of name, description, image or
author is answered 400 and leaves the store unchanged. -/
theorem create_missing_field_rejected (b : CreateBody) (db : DB)
    (h : b.name = none ∨ b.description = none ∨ b.image = none ∨ b.author = none) :
    createHandler b db = (.badRequest, db) := by
  unfold createHandler
  rcases h with h | h | h | h <;> simp [h, jsTruthyStr, jsTruthyList]

/-- Claim C10: whatever optional category, price or quantity the body
supplied, the document the handler hands to the persistence layer carries
the fixed default category, price 0 and quantity 1, and the persisted
record is exactly the strict-mode save of that document. -/
theorem create_ignores_supplied_optionals (b : CreateBody) (db : DB) (p : Product) (db' : DB)
    (h : createHandler b db = (.created p, db')) :
    (newProductDoc b).category = generalSentinel ∧ (newProductDoc b).price = 0 ∧
      (newProductDoc b).quantity = 1 ∧ p = saveStrict (newProductDoc b) db.nextId ∧
      db'.products = db.products ++ [p] := by
  unfold createHandler at h
  split at h
  · simp at h
  · dsimp only at h
    rw [Prod.mk.injEq] at h
    obtain ⟨h1, h2⟩ := h
    cases h1
    subst h2
    exact ⟨rfl, rfl, rfl, rfl, rfl⟩


theorem create_missing_witness :
    createHandler bNoName initDB = (.badRequest, initDB) :=
  create_missing_field_rejected bNoName initDB (Or.inl rfl)

theorem create_ignores_witness :
    (newProductDoc bFull).category = generalSentinel ∧ (newProductDoc bFull).price = 0 ∧
      (newProductDoc bFull).quantity = 1 ∧
      pCreated = saveStrict (newProductDoc bFull) initDB.nextId ∧
      dbAfterCreate.products = initDB.products ++ [pCreated] :=
  create_ignores_supplied_optionals bFull initDB pCreated dbAfterCreate (by decide)

/-- Claim C5 counterexample: with `minPrice = "Infinity"` and
`maxPrice = "20"` the price filter is applied even though the lower bound
does not parse as a finite number, refuting "applied only if both parse as
finite numbers". -/
theorem price_filter_infinity_counterexample :
    (buildFilter c5Query).price = some (.posInf, .fin 20) ∧
      (parseFloat "Infinity").isFinite = false := by
  decide


/-- Claim C5 (amended): the price filter is applied iff both bounds are
present as non-empty strings and both `parseFloat` results pass the `!isNaN`
check (values parsing to an infinity also enable the filter); supplying only
one bound leaves the price filter off, and the request still succeeds. -/
theorem price_filter_iff_both_non_nan (q : ListQuery) (db : DB) :
    ((buildFilter q).price.isSome =
      (jsTruthyStr q.minPrice && jsTruthyStr q.maxPrice
        && !(parseFloat (q.minPrice.getD "")).isNaN
        && !(parseFloat (q.maxPrice.getD "")).isNaN)) ∧
    ((q.minPrice = none ∨ q.maxPrice = none) → (buildFilter q).price = none) ∧
    (q.page = none → q.limit = none →
      ∃ ps tp t, listHandler q db = .ok ps tp t) := by
  refine ⟨?_, ?_, ?_⟩
  · unfold buildFilter
    dsimp only
    cases hA : (jsTruthyStr q.minPrice && jsTruthyStr q.maxPrice)
    · simp [hA]
    · cases hB : (!(parseFloat (q.minPrice.getD "")).isNaN
          && !(parseFloat (q.maxPrice.getD "")).isNaN)
      · simp only [Bool.and_assoc] at hA hB ⊢
        simp [hA, hB]
      · simp only [Bool.and_assoc] at hA hB ⊢
        simp [hA, hB]
  · intro h
    unfold buildFilter
    dsimp only
    rcases h with h | h <;> simp [h, jsTruthyStr]
  · intro hpg hlm
    unfold listHandler
    rw [hpg, hlm]
    dsimp only
    rw [if_pos (by norm_num : (1:Int) ≤ 1 ∧ (1:Int) ≤ 10)]
    exact ⟨_, _, _, rfl⟩

theorem price_filter_iff_witness :
    (buildFilter c5OnlyMin).price = none ∧
      ∃ ps tp t, listHandler c5OnlyMin initDB = .ok ps tp t :=
  ⟨(price_filter_iff_both_non_nan c5OnlyMin initDB).2.1 (Or.inr rfl),
   (price_filter_iff_both_non_nan c5OnlyMin initDB).2.2 rfl rfl⟩

/-- Claim C4: for valid numeric page and limit, `GET /` returns
`totalPages = ceil(totalProducts/limit)` (characterized as the least `k`
with `totalProducts ≤ k·limit`), the page of filtered records sorted by
creation time descending after skipping `(page-1)·limit`, and an
out-of-range page yields an empty product sequence while `totalPages` and
`totalProducts` still describe the full filtered set. -/
theorem list_pagination_spec (q : ListQuery) (db : DB) (page lim : Int)
    (hpage : (match q.page with
      | some s => jsParseInt s
      | none => some 1) = some page)
    (hlim : (match q.limit with
      | some s => jsParseInt s
      | none => some 10) = some lim)
    (hp1 : 1 ≤ page) (hl1 : 1 ≤ lim) :
    ∃ ps,
      listHandler q db =
        .ok ps (ceilDiv (filteredProducts q db).length lim.toNat)
          (filteredProducts q db).length ∧
      ps = (((sortDesc (filteredProducts q db)).drop
              ((page - 1) * lim).toNat).take lim.toNat).map (populateAuthorEmail db) ∧
      (filteredProducts q db).length ≤
        ceilDiv (filteredProducts q db).length lim.toNat * lim.toNat ∧
      (∀ k : Nat, (filteredProducts q db).length ≤ k * lim.toNat →
        ceilDiv (filteredProducts q db).length lim.toNat ≤ k) ∧
      List.Sorted createdGe (ps.map Prod.fst) ∧
      ((filteredProducts q db).length ≤ ((page - 1) * lim).toNat → ps = []) := by
  have hlpos : 1 ≤ lim.toNat := by omega
  refine ⟨_, ?_, rfl, ?_, ?_, ?_, ?_⟩
  · unfold listHandler
    rw [hpage, hlim]
    dsimp only
    rw [if_pos ⟨hp1, hl1⟩]
    rfl
  · exact le_ceilDiv_mul _ _ hlpos
  · intro k hk
    exact ceilDiv_le_of_le_mul hlpos hk
  · have hcomp :
        (fun x => Prod.fst (populateAuthorEmail db x)) = (id : Product → Product) := by
      funext x
      rfl
    rw [List.map_map, Function.comp_def, hcomp, List.map_id]
    have hsub :
        (((sortDesc (filteredProducts q db)).drop ((page - 1) * lim).toNat).take lim.toNat).Sublist
          (sortDesc (filteredProducts q db)) :=
      (List.take_sublist _ _).trans (List.drop_sublist _ _)
    exact (sorted_sortDesc (filteredProducts q db)).sublist hsub
  · intro hout
    have hlen : (sortDesc (filteredProducts q db)).length ≤ ((page - 1) * lim).toNat := by
      rw [length_sortDesc]
      exact hout
    rw [List.drop_eq_nil_of_le hlen, List.take_nil, List.map_nil]

theorem list_pagination_witness :
    listHandler pageQ exDB = ListRes.ok [] 2 4 := by
  obtain ⟨ps, h1, h2, h3, h4, h5, h6⟩ :=
    list_pagination_spec pageQ exDB 3 2 (by decide) (by decide) (by decide) (by decide)
  rw [h6 (by decide)] at h1
  exact h1.trans (by decide)

/-- Claim C8: `GET /:id` answers 404 for a nonexistent id, and for an
existing id returns the product together with exactly the reviews whose
`productId` equals that id, each review's user expanded to username and
email. -/
theorem get_one_spec (pid : Nat) (db : DB) :
    (db.products.find? (fun p => p.id == pid) = none →
      getProductHandler pid db = .notFound) ∧
    (∀ p, db.products.find? (fun p => p.id == pid) = some p →
      getProductHandler pid db =
          .ok (p, (db.users.find? (fun u => u.uid == p.author)).map
                (fun u => (u.email, u.username)))
            (reviewsFor db pid) ∧
        (reviewsFor db pid).map Prod.fst = db.reviews.filter (fun r => r.productId == pid) ∧
        ∀ pr ∈ reviewsFor db pid,
          pr.2 = (db.users.find? (fun u => u.uid == pr.1.userId)).map
              (fun u => (u.username, u.email))) := by
  constructor
  · intro h
    unfold getProductHandler
    rw [h]
  · intro p hp
    refine ⟨?_, ?_, ?_⟩
    · unfold getProductHandler
      rw [hp]
    · unfold reviewsFor
      rw [List.map_map]
      have hcomp :
          (Prod.fst ∘ populateReviewUser db) = (id : Review → Review) := by
        funext r
        rfl
      rw [hcomp, List.map_id]
    · intro pr hpr
      unfold reviewsFor at hpr
      rw [List.mem_map] at hpr
      obtain ⟨r, _, hr⟩ := hpr
      subst hr
      rfl

theorem get_one_witness :
    getProductHandler 1 delDB =
        .ok (pShoes, (delDB.users.find? (fun u => u.uid == pShoes.author)).map
            (fun u => (u.email, u.username)))
          (reviewsFor delDB 1) ∧
      (reviewsFor delDB 1).map Prod.fst =
        delDB.reviews.filter (fun r => r.productId == 1) :=
  ⟨((get_one_spec 1 delDB).2 pShoes (by decide)).1,
   ((get_one_spec 1 delDB).2 pShoes (by decide)).2.1⟩

/-- Claim C7: `DELETE /:id` answers 404 and changes neither store when the
id resolves to no product; otherwise it deletes the product record and then
every review whose `productId` equals the id, so no review referencing the
product remains retrievable. -/
theorem delete_cascade_spec (pid : Nat) (db : DB) :
    (db.products.find? (fun p => p.id == pid) = none →
      deleteProductHandler pid db = (.notFound, db)) ∧
    (∀ p, db.products.find? (fun p => p.id == pid) = some p →
      (deleteProductHandler pid db).1 = .ok ∧
      (deleteProductHandler pid db).2.products = db.products.filter (fun q => q.id ≠ pid) ∧
      (deleteProductHandler pid db).2.reviews.filter (fun r => r.productId == pid) = [] ∧
      ∀ r ∈ (deleteProductHandler pid db).2.reviews, r.productId ≠ pid) := by
  constructor
  · intro h
    unfold deleteProductHandler
    rw [h]
  · intro p hp
    have hh : deleteProductHandler pid db =
        (.ok,
         { db with
           products := db.products.filter (fun q => q.id ≠ pid)
           reviews := db.reviews.filter (fun r => r.productId ≠ pid) }) := by
      unfold deleteProductHandler
      rw [hp]
    rw [hh]
    refine ⟨rfl, rfl, ?_, ?_⟩
    · rw [List.filter_eq_nil_iff]
      intro r hr
      rw [List.mem_filter] at hr
      have hne : r.productId ≠ pid := by
        have := hr.2
        simpa using this
      simp [hne]
    · intro r hr
      rw [List.mem_filter] at hr
      have := hr.2
      simpa using this

theorem delete_cascade_witness :
    (deleteProductHandler 1 delDB).1 = .ok ∧
      (deleteProductHandler 1 delDB).2.reviews.filter (fun r => r.productId == 1) = [] :=
  ⟨((delete_cascade_spec 1 delDB).2 pShoes (by decide)).1,
   ((delete_cascade_spec 1 delDB).2 pShoes (by decide)).2.2.1⟩

/-- Claim C3 (code behavior at the empty-token edge case): for a target
whose name tokens are all single characters, the built pattern is the empty
regex, which matches every name — the handler returns a product sharing
neither a name token nor the category, instead of only same-category
products. -/
theorem related_empty_tokens_matches_all :
    nameTokens bugNameP.name = [] ∧
      bugOtherP.category ≠ bugNameP.category ∧
      relatedHandler 1 bugDB = .ok [bugOtherP] := by
  decide

/-- Claim C6 (code behavior at the failing input): a create whose image is
the empty array passes the truthiness check (JS `![]` is false) and the
array required check (`v != null`), so a product with an empty image
sequence is persisted and the claimed invariant fails on the resulting
store. -/
theorem create_empty_image_persisted :
    createHandler bEmptyImg initDB = (.created pEmptyImg, dbEmptyImg) ∧
      pEmptyImg.image = [] ∧ ¬ imageInv dbEmptyImg := by
  refine ⟨by decide, rfl, ?_⟩
  intro h
  exact h pEmptyImg (by decide) rfl
